import Mathlib

/-!
Shallow embedding of `src/scrap.py` and `src/console_proc.py`
(repository `parse_schools`).

External collaborators (HTTP transport, HTML tree query, filesystem,
JSON serialization) are black boxes: a fetched teacher page is modelled
by the list of teacher cards its selectors would yield, a fetched image
by its byte list, and each network attempt by the outcome the except
clauses of the code distinguish.  File writes and task launches are
recorded as an explicit event trace.
-/

namespace Scrap

/-- `MAX_RECONNECT_TRIES` of scrap.py (line 12). -/
def MAX_RECONNECT_TRIES : Nat := 3

/-- `SUBFOLDER` of scrap.py (line 13). -/
def SUBFOLDER : String := "img"

/-- `URL_TEACHERS` of scrap.py (line 11). -/
def URL_TEACHERS : String := "/teachers"

/-- `TRANSLATION_TABLE` of scrap.py (lines 14-24): a Python dict whose keys
are one-character strings and whose values are all the underscore. -/
def TRANSLATION_TABLE : List (String × String) :=
  [("/", "_"), ("<", "_"), (">", "_"), (":", "_"), ("\"", "_"),
   ("\\", "_"), ("|", "_"), ("?", "_"), ("*", "_")]

/-- The value computed and then discarded by the body of `make_name_valid`
(scrap.py line 29): `name.strip().translate(TRANSLATION_TABLE)`.
Python's `str.translate` looks every character up by its code point; the
keys of `TRANSLATION_TABLE` are one-character strings, not code points, so
every lookup misses and `translate` returns its argument unchanged; only the
strip has an effect.  Stripping is modelled directly on the character
list: drop whitespace from the front, then from the back (the difference
to `str.strip()` on exotic Unicode whitespace is irrelevant here because
the value is discarded anyway). -/
def discarded_sanitized (name : String) : String :=
  ⟨((name.data.dropWhile Char.isWhitespace).reverse.dropWhile
      Char.isWhitespace).reverse⟩

/-- `make_name_valid` of scrap.py (lines 27-29).  The function's only
statement computes `name.strip().translate(TRANSLATION_TABLE)` (a pure
expression, see `discarded_sanitized`) and discards it; there is no
`return`, so the Python function returns `None` for every input.  We model
the return value as `Option String`; it is always `none`. -/
def make_name_valid (_name : String) : Option String := none

/-- Outcome of one network attempt, over the alphabet of outcomes that
both retry loops HANDLE: `transportError` stands for the caught tuple
`aiohttp.ServerConnectionError`, `aiohttp.ClientError`,
`aiohttp.ServerTimeoutError` (retried), `unicodeError` for `UnicodeError`
while decoding the body (aborts the operation).  A plain
`asyncio.TimeoutError` that is not an aiohttp error is NOT in this
alphabet: only `download_and_save_image` catches it (scrap.py lines
43-44), while `parse_teachers_page` does not (lines 72-75), so there it
escapes.  That full alphabet, with the escape represented, is
`AttemptOutcome` / `parse_teachers_page_exc` below; on this handled
alphabet the two models agree (`parse_teachers_page_exc_agrees`). -/
inductive FetchOutcome (α : Type) where
  | success (a : α)
  | transportError
  | unicodeError
deriving DecidableEq

/-- Result of the retry loop: `ok a tries` carries the final value of the
`tries` counter (the `finally: tries += 1` clause runs once per attempt,
including the attempt that breaks or returns), `unicodeAbort tries`
likewise, and `exhausted` is the `while ... else:` branch taken when the
loop condition `tries < MAX_RECONNECT_TRIES` fails. -/
inductive FetchResult (α : Type) where
  | ok (a : α) (tries : Nat)
  | unicodeAbort (tries : Nat)
  | exhausted
deriving DecidableEq

/-- The retry loop shared by `parse_teachers_page` (lines 67-82) and
`download_and_save_image` (lines 37-53) of scrap.py:
`while tries < MAX_RECONNECT_TRIES: try ... except transport: pass
except UnicodeError: return ... else: break finally: tries += 1`.
`attempt i` is the outcome the environment gives the i-th attempt
(i counts from 0); `remaining` is `MAX_RECONNECT_TRIES - tries`, on which
the recursion is structural. -/
def fetchLoop {α : Type} (attempt : Nat → FetchOutcome α) :
    (tries remaining : Nat) → FetchResult α
  | _, 0 => .exhausted
  | tries, r + 1 =>
    match attempt tries with
    | .success a => .ok a (tries + 1)
    | .transportError => fetchLoop attempt (tries + 1) r
    | .unicodeError => .unicodeAbort (tries + 1)

/-- Run the retry loop from `tries = 0`, as both functions do. -/
def fetch {α : Type} (attempt : Nat → FetchOutcome α) : FetchResult α :=
  fetchLoop attempt 0 MAX_RECONNECT_TRIES

/-- One teacher card (`div.sch_ptbox_item`) as the HTML selectors of
scrap.py see it: `nameText` is the text of the `a.user_type_3` element when
that element is present; `imgSrc` is `some attr` when the `a.photo>img`
element is present, where `attr` is its `src` attribute (itself optional:
`img.get` yields `None` when the attribute is missing). -/
structure Card where
  nameText : Option String
  imgSrc : Option (Option String)
deriving DecidableEq

/-- One emitted teacher record, a Python dict with optional keys.
`name = none` means the `'name'` key is absent; `name = some v` means the
key is present with value `v` (`v = none` is Python `None`).  Same for
`img_url`. -/
structure Teacher where
  name : Option (Option String)
  img_url : Option (Option String)
deriving DecidableEq

/-- The per-card body of the parse loop (scrap.py lines 87-95): the
`'name'` key is set to `make_name_valid(name.text)` when the name element
is present, the `'img_url'` key is set to `img.get('src')` when the photo
image element is present. -/
def parseCard (card : Card) : Teacher :=
  { name := card.nameText.map make_name_valid, img_url := card.imgSrc }

/-- The parse loop of scrap.py (lines 86-97): build the record for each
card in document order and append it when the dict is non-empty
(`if teacher:`), i.e. when at least one of the two keys was set. -/
def parseCards : List Card → List Teacher
  | [] => []
  | card :: rest =>
    let teacher := parseCard card
    if teacher.name.isSome || teacher.img_url.isSome then
      teacher :: parseCards rest
    else
      parseCards rest

/-- `parse_teachers_page` of scrap.py (lines 61-100), restricted to the
attempt outcomes its except clauses handle: run the retry loop for the
page; on `UnicodeError` return `[]` (line 76), on exhaustion return `[]`
(line 82), on success parse the cards the page yields.  A plain
`asyncio.TimeoutError` is not among this function's except clauses and
escapes; that path is modelled by `parse_teachers_page_exc` below, which
agrees with this definition on the handled alphabet. -/
def parse_teachers_page (attempt : Nat → FetchOutcome (List Card)) :
    List Teacher :=
  match fetch attempt with
  | .ok cards _ => parseCards cards
  | .unicodeAbort _ => []
  | .exhausted => []

/-- `os.path.join(SUBFOLDER, filename + ".jpg")` (scrap.py line 55). -/
def imgPath (filename : String) : String :=
  SUBFOLDER ++ "/" ++ filename ++ ".jpg"

/-- `download_and_save_image` of scrap.py (lines 32-58): run the retry
loop for the image bytes; on `UnicodeError` return with no file written
(line 47), on exhaustion return with no file written (line 53), on success
write the bytes to `img/<filename>.jpg`.  The returned value records the
file write performed: `some (path, bytes)`, or `none` when no file is
written. -/
def download_and_save_image (filename : String)
    (attempt : Nat → FetchOutcome (List Nat)) : Option (String × List Nat) :=
  match fetch attempt with
  | .ok raw _ => some (imgPath filename, raw)
  | .unicodeAbort _ => none
  | .exhausted => none

/-- Outcome of one network attempt over the FULL alphabet of scrap.py's
error taxonomy: as `FetchOutcome`, plus `timeoutError`, a plain
`asyncio.TimeoutError` that is not an aiohttp error.
`download_and_save_image` catches it in a clause of its own (lines 43-44)
and retries; `parse_teachers_page` has no such clause (lines 72-75), so
there it escapes the loop and propagates to the caller. -/
inductive AttemptOutcome (α : Type) where
  | success (a : α)
  | transportError
  | timeoutError
  | unicodeError
deriving DecidableEq

/-- Result of a retry loop over the full alphabet: as `FetchResult`, plus
`raised tries`, an exception escaping the loop uncaught (the
`finally: tries += 1` still runs while the exception propagates). -/
inductive LoopResult (α : Type) where
  | ok (a : α) (tries : Nat)
  | unicodeAbort (tries : Nat)
  | raised (tries : Nat)
  | exhausted
deriving DecidableEq

/-- The retry loop of `parse_teachers_page` (lines 67-82) over the full
alphabet: its except clauses cover the aiohttp transport tuple and
`UnicodeError` only, so a plain `asyncio.TimeoutError` propagates out of
the loop (and out of the function). -/
def pageFetchLoop {α : Type} (attempt : Nat → AttemptOutcome α) :
    (tries remaining : Nat) → LoopResult α
  | _, 0 => .exhausted
  | tries, r + 1 =>
    match attempt tries with
    | .success a => .ok a (tries + 1)
    | .transportError => pageFetchLoop attempt (tries + 1) r
    | .timeoutError => .raised (tries + 1)
    | .unicodeError => .unicodeAbort (tries + 1)

/-- Run the page retry loop from `tries = 0`. -/
def pageFetch {α : Type} (attempt : Nat → AttemptOutcome α) : LoopResult α :=
  pageFetchLoop attempt 0 MAX_RECONNECT_TRIES

/-- The retry loop of `download_and_save_image` (lines 37-53) over the
full alphabet: its extra except clause (lines 43-44) also catches a plain
`asyncio.TimeoutError` and retries it like the transport tuple. -/
def imgFetchLoop {α : Type} (attempt : Nat → AttemptOutcome α) :
    (tries remaining : Nat) → LoopResult α
  | _, 0 => .exhausted
  | tries, r + 1 =>
    match attempt tries with
    | .success a => .ok a (tries + 1)
    | .transportError => imgFetchLoop attempt (tries + 1) r
    | .timeoutError => imgFetchLoop attempt (tries + 1) r
    | .unicodeError => .unicodeAbort (tries + 1)

/-- Run the image retry loop from `tries = 0`. -/
def imgFetch {α : Type} (attempt : Nat → AttemptOutcome α) : LoopResult α :=
  imgFetchLoop attempt 0 MAX_RECONNECT_TRIES

/-- `parse_teachers_page` over the full alphabet: `Except.error ()` is an
exception escaping to the caller (the uncaught plain timeout); the `ok`
branches are as in `parse_teachers_page`. -/
def parse_teachers_page_exc (attempt : Nat → AttemptOutcome (List Card)) :
    Except Unit (List Teacher) :=
  match pageFetch attempt with
  | .ok cards _ => .ok (parseCards cards)
  | .unicodeAbort _ => .ok []
  | .raised _ => .error ()
  | .exhausted => .ok []

/-- `download_and_save_image` over the full alphabet: `Except.error ()`
would be an exception escaping to the caller — its loop handles every
outcome of the alphabet, so this never happens (see
`download_exc_returnsNormally`). -/
def download_and_save_image_exc (filename : String)
    (attempt : Nat → AttemptOutcome (List Nat)) :
    Except Unit (Option (String × List Nat)) :=
  match imgFetch attempt with
  | .ok raw _ => .ok (some (imgPath filename, raw))
  | .unicodeAbort _ => .ok none
  | .raised _ => .error ()
  | .exhausted => .ok none

/-- Embed a handled outcome into the full alphabet. -/
def FetchOutcome.toAttempt {α : Type} : FetchOutcome α → AttemptOutcome α
  | .success a => .success a
  | .transportError => .transportError
  | .unicodeError => .unicodeError

/-- Embed a handled-alphabet loop result into the full one. -/
def FetchResult.toLoop {α : Type} : FetchResult α → LoopResult α
  | .ok a t => .ok a t
  | .unicodeAbort t => .unicodeAbort t
  | .exhausted => .exhausted

/-- True when no exception escapes (the call returns normally). -/
def returnsNormally {ε α : Type} : Except ε α → Bool
  | .ok _ => true
  | .error _ => false

/-- One `div.schlist_city_box` block of the directory page, as the
selectors of `main` see it: the `li > a` anchors inside it, in document
order, each carrying its `href` attribute (`none` when the attribute is
absent; `a.get("href", "")` then yields the empty string). -/
structure CityBox where
  anchors : List (Option String)
deriving DecidableEq

/-- The subdomain extraction loop of scrap.py (lines 113-118):
`subdomains.extend(a.get("href", "") for a in div.select("li > a"))`
over the city boxes in document order. -/
def extractSubdomains (boxes : List CityBox) : List String :=
  boxes.foldl (fun acc b => acc ++ b.anchors.map (fun h => h.getD "")) []

/-- The `subdomains.txt` write loop of scrap.py (lines 121-123): for each
subdomain, append `subdomain + "\n"` to the file. -/
def subdomainsTxt (subdomains : List String) : String :=
  subdomains.foldl (fun acc s => acc ++ s ++ "\n") ""

/-- A teacher record as `json.dumps(..., ensure_ascii=False)` serializes
it: a JSON object, i.e. an ordered key/value list in dict insertion order
(`'name'` is assigned before `'img_url'`); each value present here is
either Python `None` (JSON `null`), modelled `none`, or a string.
Serialization itself (UTF-8, non-ASCII kept literal) is the black-box
JSON library; we model the serialized value. -/
def teacherJson (t : Teacher) : List (String × Option String) :=
  (match t.name with
   | some v => [("name", v)]
   | none => []) ++
  (match t.img_url with
   | some v => [("img_url", v)]
   | none => [])

/-- The aggregation loop of scrap.py (lines 135-138): for each awaited
per-subdomain result `res`, in launch order, `if res: teachers.extend(res)`. -/
def aggregateTeachers (results : List (List Teacher)) : List Teacher :=
  results.foldl (fun acc res => if res.isEmpty then acc else acc ++ res) []

/-- The guard of the image loop of scrap.py (lines 140-146): for each record
of one result, `name = teacher.get('name')`, `img_url = teacher.get('img_url')`,
skip when either is `None`, else launch `download_and_save_image(name, img_url)`.
`dict.get` collapses absent key and `None` value, i.e. `Option.join`.
Yields the `(name, img_url)` arguments of the launched downloads, in order. -/
def imageLaunches (res : List Teacher) : List (String × String) :=
  res.filterMap (fun t =>
    match t.name.join, t.img_url.join with
    | some n, some u => some (n, u)
    | _, _ => none)

/-- All image-download launches of the run, in launch order: the image loop
runs inside `if res:` (lines 137-146), per awaited result in launch order. -/
def allImageLaunches (results : List (List Teacher)) : List (String × String) :=
  results.foldl
    (fun acc res => if res.isEmpty then acc else acc ++ imageLaunches res) []

/-- One observable effect of `main` (scrap.py lines 103-157), in program
order: the `subdomains.txt` write (lines 121-123), the creation of one
`parse_teachers_page` task (line 130), the creation of one
`download_and_save_image` task (line 145), the `teachers.json` write
(lines 149-150), and the await of one image task (lines 153-154). -/
inductive Event where
  | writeSubdomainsTxt (content : String)
  | launchParse (url : String)
  | launchImage (name : String) (imgUrl : String)
  | writeTeachersJson (value : List (List (String × Option String)))
  | awaitImage (name : String) (imgUrl : String)
deriving DecidableEq

/-- `Event.launchImage` recognizer. -/
def isLaunchImage : Event → Bool
  | .launchImage _ _ => true
  | _ => false

/-- `Event.writeTeachersJson` recognizer. -/
def isWriteTeachersJson : Event → Bool
  | .writeTeachersJson _ => true
  | _ => false

/-- `Event.awaitImage` recognizer. -/
def isAwaitImage : Event → Bool
  | .awaitImage _ _ => true
  | _ => false

/-- The single directory-page fetch of scrap.py (lines 107-108).  It is
wrapped in no `try`, so we model only success (the city boxes the page
yields) or an exception (`raised`), which propagates out of `main`. -/
inductive DirectoryFetch where
  | ok (boxes : List CityBox)
  | raised

/-- The environment of one run: the directory page, and for each teacher
page URL the outcome of each of its fetch attempts. -/
structure World where
  directory : DirectoryFetch
  page : String → Nat → FetchOutcome (List Card)

/-- A finished run: the effects performed, and whether `main` returned
normally (`completed = false` means an exception propagated out of `main`,
killing the run). -/
structure RunResult where
  events : List Event
  completed : Bool

/-- Per-subdomain parse results, in launch order (scrap.py lines 128-131:
one `parse_teachers_page(subdomain + URL_TEACHERS, session)` task per
subdomain, in subdomain order). -/
def teacherPages (w : World) (subdomains : List String) : List (List Teacher) :=
  subdomains.map (fun s => parse_teachers_page (w.page (s ++ URL_TEACHERS)))

/-- `main` of scrap.py (lines 103-157) as an event trace.  When the
directory fetch raises, the exception propagates before any write.
Otherwise: write `subdomains.txt`, create the parse tasks, then (while
awaiting the parse results, lines 135-146) create the image-download
tasks, then write `teachers.json` (lines 148-150), then await every image
task (lines 152-154).  The trace linearizes the cooperative interleaving;
crucially it keeps every `launchImage` where `asyncio.create_task` is
called, i.e. before the `teachers.json` write. -/
def mainRun (w : World) : RunResult :=
  match w.directory with
  | .raised => ⟨[], false⟩
  | .ok boxes =>
    let subdomains := extractSubdomains boxes
    let results := teacherPages w subdomains
    let launches := allImageLaunches results
    let teachers := aggregateTeachers results
    ⟨[Event.writeSubdomainsTxt (subdomainsTxt subdomains)] ++
       subdomains.map (fun s => Event.launchParse (s ++ URL_TEACHERS)) ++
       launches.map (fun p => Event.launchImage p.1 p.2) ++
       [Event.writeTeachersJson (teachers.map teacherJson)] ++
       launches.map (fun p => Event.awaitImage p.1 p.2),
     true⟩

end Scrap

namespace ConsoleProc

/-- `_loading_chars` of console_proc.py (line 4): the four-character
spinner cycle. -/
def loading_chars : String := "-\\|/"

/-- Initial value of the module-level counter `_char_pos`
(console_proc.py line 5). -/
def char_pos_init : Nat := 0

/-- The state update of `print_loading` (console_proc.py line 11):
`_char_pos = (_char_pos + 1) % len(_loading_chars)`.  The character then
printed (line 13) is `_loading_chars[_char_pos]` at this updated value. -/
def print_loading_step (pos : Nat) : Nat :=
  (pos + 1) % loading_chars.length

/-- The value of `_char_pos` after `n` calls to `print_loading`, starting
from the module's initial state. -/
def char_pos_after : Nat → Nat
  | 0 => char_pos_init
  | n + 1 => print_loading_step (char_pos_after n)

end ConsoleProc

namespace Scrap

/-! Concrete inputs used to instantiate the theorems below. -/

/-- A teacher page whose one card carries the name "Jane Doe" and the
image `https://a.schools.by/x.jpg`, fetched successfully on the first
attempt. -/
def paJane : Nat → FetchOutcome (List Card) :=
  fun _ => .success [⟨some "Jane Doe", some (some "https://a.schools.by/x.jpg")⟩]

/-- A page with one card carrying only a name. -/
def paNameOnly : Nat → FetchOutcome (List Card) :=
  fun _ => .success [⟨some "Jane Doe", none⟩]

/-- Cards covering every presence combination of the two fields. -/
def cardsMixed : List Card :=
  [⟨some "A", some (some "u1")⟩, ⟨none, some none⟩, ⟨none, none⟩,
   ⟨some "B", none⟩]

/-- The mixed cards, fetched successfully on the first attempt. -/
def paMixed : Nat → FetchOutcome (List Card) := fun _ => .success cardsMixed

/-- Page attempts: transport errors on attempts 0 and 1, success on 2. -/
def paTransportThenOk : Nat → AttemptOutcome (List Card) := fun i =>
  match i with
  | 0 => .transportError
  | 1 => .transportError
  | _ => .success [⟨some "N", some (some "u")⟩]

/-- Image attempts: a transport error, then a plain `asyncio` timeout
(retried by the image loop only), then success. -/
def iaMixedThenOk : Nat → AttemptOutcome (List Nat) := fun i =>
  match i with
  | 0 => .transportError
  | 1 => .timeoutError
  | _ => .success [7, 7]

/-- Page attempts that all fail with transport errors. -/
def paAllTransport : Nat → FetchOutcome (List Card) := fun _ => .transportError

/-- Page attempts that all fail with transport errors, full alphabet. -/
def qaAllTransport : Nat → AttemptOutcome (List Card) := fun _ => .transportError

/-- Image attempts that fail with a transport error, a plain timeout,
then a transport error. -/
def jaMixedFail : Nat → AttemptOutcome (List Nat) := fun i =>
  match i with
  | 0 => .transportError
  | 1 => .timeoutError
  | _ => .transportError

/-- Page attempts: a transport error, then a plain `asyncio` timeout —
which `parse_teachers_page` does not catch. -/
def paTimeoutAt1 : Nat → AttemptOutcome (List Card) := fun i =>
  match i with
  | 0 => .transportError
  | _ => .timeoutError

/-- Page attempts: plain `asyncio` timeouts on attempts 0 and 1, success
on attempt 2 — the claim's fail-fail-succeed pattern with the transient
failure being a plain timeout. -/
def paPlainTimeouts : Nat → AttemptOutcome (List Card) := fun i =>
  match i with
  | 0 => .timeoutError
  | 1 => .timeoutError
  | _ => .success [⟨some "N", some (some "u")⟩]

/-- Image attempts that all fail with plain timeouts. -/
def iaAllTimeout : Nat → AttemptOutcome (List Nat) := fun _ => .timeoutError

/-- Page attempts: transport error on attempt 0, decoding error on 1. -/
def paUnicodeAt1 : Nat → FetchOutcome (List Card) := fun i =>
  match i with
  | 0 => .transportError
  | _ => .unicodeError

/-- Like `paUnicodeAt1` up to attempt 1, but attempt 2 would succeed. -/
def paUnicodeAt1ThenOk : Nat → FetchOutcome (List Card) := fun i =>
  match i with
  | 0 => .transportError
  | 1 => .unicodeError
  | _ => .success [⟨some "N", some (some "u")⟩]

/-- Image attempts: decoding error on the very first attempt. -/
def iaUnicodeAt0 : Nat → FetchOutcome (List Nat) := fun _ => .unicodeError

/-- The end-to-end scenario of the spec: a directory page with one city
box with one anchor `https://a.schools.by`, whose teacher page yields the
"Jane Doe" card on the first attempt. -/
def scenarioWorld : World :=
  { directory := .ok [⟨[some "https://a.schools.by"]⟩], page := fun _ => paJane }

/-- Two city boxes with three anchors total (one without `href`). -/
def boxesTwoCities : List CityBox :=
  [⟨[some "https://a.schools.by", none]⟩, ⟨[some "https://b.schools.by"]⟩]

/-- Page attempts that always fail with a transport error, for any URL. -/
def pagesDown : String → Nat → FetchOutcome (List Card) :=
  fun _ => paAllTransport

/-- A world whose directory-page fetch raises. -/
def raisedWorld : World := { directory := .raised, page := pagesDown }

/-! Basic lemmas about the retry loop and the emitted records. -/

theorem aggregateTeachers_aux (l : List (List Teacher)) :
    ∀ acc : List Teacher,
      l.foldl (fun acc res => if res.isEmpty then acc else acc ++ res) acc =
        acc ++ (l.filter (fun r => !r.isEmpty)).flatten := by
  induction l with
  | nil => intro acc; simp
  | cons r rest ih =>
    intro acc
    rw [List.foldl_cons, List.filter_cons]
    by_cases h : r.isEmpty = true
    · have hb : (!r.isEmpty) = false := by rw [h]; rfl
      rw [if_pos h, hb, if_neg (by decide)]
      exact ih acc
    · have hb : (!r.isEmpty) = true := by
        cases hrb : r.isEmpty
        · rfl
        · exact absurd hrb h
      rw [if_neg h, if_pos hb, List.flatten_cons, ih (acc ++ r),
        List.append_assoc]

/-- The aggregation loop concatenates the non-empty per-subdomain results
in launch order. -/
theorem aggregateTeachers_eq (results : List (List Teacher)) :
    aggregateTeachers results =
      (results.filter (fun r => !r.isEmpty)).flatten := by
  rw [aggregateTeachers, aggregateTeachers_aux, List.nil_append]

theorem subdomainsTxt_aux (l : List String) :
    ∀ acc : String,
      (l.foldl (fun acc s => acc ++ s ++ "\n") acc).data =
        acc.data ++ (l.map (fun s => s.data ++ ['\n'])).flatten := by
  induction l with
  | nil => intro acc; simp
  | cons s rest ih =>
    intro acc
    rw [List.foldl_cons, List.map_cons, List.flatten_cons, ih]
    have h1 : (acc ++ s ++ "\n").data = acc.data ++ (s.data ++ ['\n']) := by
      rw [String.data_append, String.data_append, List.append_assoc]
    rw [h1, List.append_assoc]

/-- The bytes of `subdomains.txt`: for each subdomain in document order,
its characters followed by one newline. -/
theorem subdomainsTxt_data (subdomains : List String) :
    (subdomainsTxt subdomains).data =
      (subdomains.map (fun s => s.data ++ ['\n'])).flatten := by
  rw [subdomainsTxt, subdomainsTxt_aux]
  rfl

theorem extractSubdomains_aux (boxes : List CityBox) :
    ∀ acc : List String,
      (boxes.foldl
          (fun acc b => acc ++ b.anchors.map (fun h => h.getD "")) acc).length =
        acc.length + (boxes.map (fun b => b.anchors.length)).sum := by
  induction boxes with
  | nil => intro acc; simp
  | cons b rest ih =>
    intro acc
    rw [List.foldl_cons, List.map_cons, List.sum_cons, ih]
    simp
    omega

/-- One extracted subdomain per anchor: the extraction preserves the total
anchor count over all city boxes. -/
theorem extractSubdomains_length (boxes : List CityBox) :
    (extractSubdomains boxes).length =
      (boxes.map (fun b => b.anchors.length)).sum := by
  rw [extractSubdomains, extractSubdomains_aux]
  simp

theorem fetchLoop_step {α : Type} (attempt : Nat → FetchOutcome α)
    (tries r : Nat) :
    fetchLoop attempt tries (r + 1) =
      match attempt tries with
      | .success a => .ok a (tries + 1)
      | .transportError => fetchLoop attempt (tries + 1) r
      | .unicodeError => .unicodeAbort (tries + 1) := rfl

theorem fetch_success_at {α : Type} (attempt : Nat → FetchOutcome α)
    (k : Nat) (a : α) (hk : k < MAX_RECONNECT_TRIES)
    (hb : ∀ i, i < k → attempt i = .transportError)
    (hs : attempt k = .success a) :
    fetch attempt = .ok a (k + 1) := by
  have hk3 : k = 0 ∨ k = 1 ∨ k = 2 := by
    revert hk; unfold MAX_RECONNECT_TRIES; omega
  rcases hk3 with h | h | h <;> subst h
  · calc fetch attempt = fetchLoop attempt 0 (2 + 1) := rfl
      _ = .ok a (0 + 1) := by rw [fetchLoop_step, hs]
  · calc fetch attempt = fetchLoop attempt 0 (2 + 1) := rfl
      _ = fetchLoop attempt 1 (1 + 1) := by
            rw [fetchLoop_step, hb 0 (by omega)]
      _ = .ok a (1 + 1) := by rw [fetchLoop_step, hs]
  · calc fetch attempt = fetchLoop attempt 0 (2 + 1) := rfl
      _ = fetchLoop attempt 1 (1 + 1) := by
            rw [fetchLoop_step, hb 0 (by omega)]
      _ = fetchLoop attempt 2 (0 + 1) := by
            rw [fetchLoop_step, hb 1 (by omega)]
      _ = .ok a (2 + 1) := by rw [fetchLoop_step, hs]

theorem fetch_unicode_at {α : Type} (attempt : Nat → FetchOutcome α)
    (k : Nat) (hk : k < MAX_RECONNECT_TRIES)
    (hb : ∀ i, i < k → attempt i = .transportError)
    (hu : attempt k = .unicodeError) :
    fetch attempt = .unicodeAbort (k + 1) := by
  have hk3 : k = 0 ∨ k = 1 ∨ k = 2 := by
    revert hk; unfold MAX_RECONNECT_TRIES; omega
  rcases hk3 with h | h | h <;> subst h
  · calc fetch attempt = fetchLoop attempt 0 (2 + 1) := rfl
      _ = .unicodeAbort (0 + 1) := by rw [fetchLoop_step, hu]
  · calc fetch attempt = fetchLoop attempt 0 (2 + 1) := rfl
      _ = fetchLoop attempt 1 (1 + 1) := by
            rw [fetchLoop_step, hb 0 (by omega)]
      _ = .unicodeAbort (1 + 1) := by rw [fetchLoop_step, hu]
  · calc fetch attempt = fetchLoop attempt 0 (2 + 1) := rfl
      _ = fetchLoop attempt 1 (1 + 1) := by
            rw [fetchLoop_step, hb 0 (by omega)]
      _ = fetchLoop attempt 2 (0 + 1) := by
            rw [fetchLoop_step, hb 1 (by omega)]
      _ = .unicodeAbort (2 + 1) := by rw [fetchLoop_step, hu]

theorem pageFetchLoop_step {α : Type} (attempt : Nat → AttemptOutcome α)
    (tries r : Nat) :
    pageFetchLoop attempt tries (r + 1) =
      match attempt tries with
      | .success a => .ok a (tries + 1)
      | .transportError => pageFetchLoop attempt (tries + 1) r
      | .timeoutError => .raised (tries + 1)
      | .unicodeError => .unicodeAbort (tries + 1) := rfl

theorem imgFetchLoop_step {α : Type} (attempt : Nat → AttemptOutcome α)
    (tries r : Nat) :
    imgFetchLoop attempt tries (r + 1) =
      match attempt tries with
      | .success a => .ok a (tries + 1)
      | .transportError => imgFetchLoop attempt (tries + 1) r
      | .timeoutError => imgFetchLoop attempt (tries + 1) r
      | .unicodeError => .unicodeAbort (tries + 1) := rfl

/-- The image retry loop handles every outcome of the alphabet, so it
never ends in an escaped exception. -/
theorem imgFetchLoop_ne_raised {α : Type} (attempt : Nat → AttemptOutcome α) :
    ∀ remaining tries t,
      imgFetchLoop attempt tries remaining ≠ LoopResult.raised t := by
  intro remaining
  induction remaining with
  | zero =>
    intro tries t h
    simp [imgFetchLoop] at h
  | succ r ih =>
    intro tries t h
    rw [imgFetchLoop_step] at h
    cases ha : attempt tries <;> rw [ha] at h
    · simp at h
    · exact ih (tries + 1) t h
    · exact ih (tries + 1) t h
    · simp at h

/-- `download_and_save_image` returns normally on every attempt sequence
of the full alphabet: no exception escapes to the caller. -/
theorem download_exc_returnsNormally (filename : String)
    (attempt : Nat → AttemptOutcome (List Nat)) :
    returnsNormally (download_and_save_image_exc filename attempt) = true := by
  unfold download_and_save_image_exc imgFetch
  cases hf : imgFetchLoop attempt 0 MAX_RECONNECT_TRIES with
  | ok a t => rfl
  | unicodeAbort t => rfl
  | raised t => exact absurd hf (imgFetchLoop_ne_raised attempt _ _ _)
  | exhausted => rfl

/-- On the handled alphabet the full page loop coincides with the
restricted one. -/
theorem pageFetchLoop_handled {α : Type} (attempt : Nat → FetchOutcome α) :
    ∀ remaining tries,
      pageFetchLoop (fun i => (attempt i).toAttempt) tries remaining =
        (fetchLoop attempt tries remaining).toLoop := by
  intro remaining
  induction remaining with
  | zero => intro tries; rfl
  | succ r ih =>
    intro tries
    rw [pageFetchLoop_step, fetchLoop_step]
    cases attempt tries
    case success a => rfl
    case transportError => exact ih (tries + 1)
    case unicodeError => rfl

/-- On attempt sequences from the handled alphabet — no plain
`asyncio.TimeoutError` — the full model of `parse_teachers_page` returns
normally with exactly the restricted model's result. -/
theorem parse_teachers_page_exc_agrees
    (attempt : Nat → FetchOutcome (List Card)) :
    parse_teachers_page_exc (fun i => (attempt i).toAttempt) =
      Except.ok (parse_teachers_page attempt) := by
  unfold parse_teachers_page_exc parse_teachers_page pageFetch fetch
  rw [pageFetchLoop_handled]
  cases fetchLoop attempt 0 MAX_RECONNECT_TRIES <;> rfl

theorem parseCard_name (card : Card) :
    (parseCard card).name = card.nameText.map (fun _ => (none : Option String)) := by
  rfl

theorem mem_parseCards_name_join (cards : List Card) :
    ∀ t ∈ parseCards cards, t.name.join = none := by
  induction cards with
  | nil => intro t ht; simp [parseCards] at ht
  | cons card rest ih =>
    intro t ht
    rw [parseCards] at ht
    by_cases h : ((parseCard card).name.isSome || (parseCard card).img_url.isSome) = true
    · rw [if_pos h] at ht
      rcases List.mem_cons.mp ht with h1 | h1
      · subst h1
        rw [parseCard_name]
        cases card.nameText <;> rfl
      · exact ih t h1
    · rw [if_neg h] at ht
      exact ih t ht

theorem mem_parse_teachers_page_name_join
    (attempt : Nat → FetchOutcome (List Card)) :
    ∀ t ∈ parse_teachers_page attempt, t.name.join = none := by
  intro t ht
  unfold parse_teachers_page at ht
  rcases hfetch : fetch attempt with a | a | _ <;> rw [hfetch] at ht
  · exact mem_parseCards_name_join _ t ht
  · simp at ht
  · simp at ht

theorem imageLaunches_eq_nil (res : List Teacher)
    (h : ∀ t ∈ res, t.name.join = none) : imageLaunches res = [] := by
  induction res with
  | nil => rfl
  | cons t rest ih =>
    have ht : t.name.join = none := h t (List.mem_cons_self t rest)
    unfold imageLaunches
    rw [List.filterMap_cons]
    have hmatch :
        (match t.name.join, t.img_url.join with
          | some n, some u => some (n, u)
          | _, _ => none) = (none : Option (String × String)) := by
      rw [ht]
    rw [hmatch]
    exact ih (fun t' ht' => h t' (List.mem_cons_of_mem _ ht'))

theorem imageLaunches_parse_teachers_page
    (attempt : Nat → FetchOutcome (List Card)) :
    imageLaunches (parse_teachers_page attempt) = [] :=
  imageLaunches_eq_nil _ (mem_parse_teachers_page_name_join attempt)

theorem allImageLaunches_teacherPages (w : World) (subdomains : List String) :
    allImageLaunches (teacherPages w subdomains) = [] := by
  unfold teacherPages allImageLaunches
  induction subdomains with
  | nil => rfl
  | cons s rest ih =>
    by_cases h :
        (parse_teachers_page (w.page (s ++ URL_TEACHERS))).isEmpty = true
    · rw [List.map_cons, List.foldl_cons, if_pos h]
      exact ih
    · rw [List.map_cons, List.foldl_cons, if_neg h, List.nil_append,
        imageLaunches_parse_teachers_page]
      exact ih

/-- Closed form of the parse loop: keep, in document order, exactly the
cards with at least one of the two elements present; the `name` key is
present exactly when the name element is, always holding Python `None`;
the `img_url` key copies the photo element's `src` attribute. -/
theorem parseCards_eq (cards : List Card) :
    parseCards cards =
      (cards.filter (fun c => c.nameText.isSome || c.imgSrc.isSome)).map
        (fun c => { name := c.nameText.map (fun _ => (none : Option String)),
                    img_url := c.imgSrc }) := by
  induction cards with
  | nil => rfl
  | cons c rest ih =>
    cases hn : c.nameText <;> cases hi : c.imgSrc <;>
      simp [parseCards, parseCard, make_name_valid, hn, hi, ih]

theorem mem_aggregateTeachers_name_join (w : World) (subs : List String) :
    ∀ t ∈ aggregateTeachers (teacherPages w subs), t.name.join = none := by
  intro t ht
  rw [aggregateTeachers_eq, List.mem_flatten] at ht
  obtain ⟨res, hres, htres⟩ := ht
  have hres2 : res ∈ teacherPages w subs := List.mem_of_mem_filter hres
  rw [teacherPages, List.mem_map] at hres2
  obtain ⟨s, hs, rfl⟩ := hres2
  exact mem_parse_teachers_page_name_join _ t htres

theorem mainRun_no_image_events (w : World) :
    ∀ e ∈ (mainRun w).events,
      isLaunchImage e = false ∧ isAwaitImage e = false := by
  intro e he
  cases hd : w.directory with
  | raised =>
    unfold mainRun at he
    rw [hd] at he
    simp at he
  | ok boxes =>
    unfold mainRun at he
    rw [hd] at he
    simp only [allImageLaunches_teacherPages, List.map_nil,
      List.append_nil, List.nil_append, List.cons_append,
      List.singleton_append, List.mem_cons, List.mem_append,
      List.mem_map] at he
    rcases he with h | h | h
    · subst h; exact ⟨rfl, rfl⟩
    · obtain ⟨s, _, rfl⟩ := h; exact ⟨rfl, rfl⟩
    · rcases h with h | h
      · subst h; exact ⟨rfl, rfl⟩
      · simp at h

theorem count_newlines (l : List String)
    (h : ∀ s ∈ l, s.data.count '\n' = 0) :
    ((l.map (fun s => s.data ++ ['\n'])).flatten).count '\n' = l.length := by
  induction l with
  | nil => rfl
  | cons s rest ih =>
    rw [List.map_cons, List.flatten_cons, List.count_append,
      List.count_append, h s (List.mem_cons_self s rest),
      ih (fun x hx => h x (List.mem_cons_of_mem _ hx))]
    simp [List.count_cons]
    omega

/-! The claims. -/

/-- C1: the claim says `make_name_valid` returns a trimmed string with
every forbidden character replaced; the code instead discards the
computed string and returns `None` — here evaluated at the input
`" a/b "`, for which the claim demands a string (`"a_b"`).  Moreover even
the discarded expression, `" a/b ".strip().translate(TRANSLATION_TABLE)`,
still contains the forbidden `/` because `str.translate` looks keys up by
code point and the table's keys are strings. -/
theorem C1_make_name_valid_returns_none :
    make_name_valid " a/b " = none ∧ discarded_sanitized " a/b " = "a/b" := by
  exact ⟨rfl, by decide⟩

/-- C2: `make_name_valid` returns `None` on every input; hence every
record emitted by `parse_teachers_page` that carries a `'name'` key
carries it with value `None`, and the orchestrator's `name is None` guard
filters every record, launching no `download_and_save_image` task. -/
theorem C2_name_none_guard_never_fires :
    (∀ s, make_name_valid s = none) ∧
    (∀ attempt : Nat → FetchOutcome (List Card),
      ∀ t ∈ parse_teachers_page attempt,
        t.name.isSome = true → t.name = some none) ∧
    (∀ attempt : Nat → FetchOutcome (List Card),
      imageLaunches (parse_teachers_page attempt) = []) := by
  refine ⟨fun s => rfl, ?_, fun attempt => imageLaunches_parse_teachers_page attempt⟩
  intro attempt t ht hsome
  have hj := mem_parse_teachers_page_name_join attempt t ht
  cases hn : t.name with
  | none => rw [hn] at hsome; cases hsome
  | some v =>
    cases v with
    | none => rfl
    | some s => rw [hn] at hj; simp [Option.join] at hj

/-- Witness for C2 at a concrete page: the one record of the "Jane Doe"
page carries the `'name'` key with value `None`, and no download is
launched from that page. -/
theorem C2_witness :
    ({ name := some none,
       img_url := some (some "https://a.schools.by/x.jpg") } : Teacher).name
        = some none ∧
    imageLaunches (parse_teachers_page paJane) = [] :=
  ⟨C2_name_none_guard_never_fires.2.1 paJane _ (by decide) (by decide),
   C2_name_none_guard_never_fires.2.2 paJane⟩

/-- C3 counterexample: on a page whose one card has the name element
"Jane Doe" and no photo element, the claim says the parser populates the
record's name from the name element; the code emits the record with the
`'name'` key bound to `None` instead. -/
theorem C3_counterexample :
    parse_teachers_page paNameOnly ≠
      [{ name := some (some "Jane Doe"), img_url := none }] := by
  decide

/-- C3 (amended): on a successfully fetched page, `parse_teachers_page`
returns exactly the cards with at least one of the two elements present,
in document order; the `'img_url'` field copies the photo element's `src`
attribute exactly as present in the source, and the `'name'` key is
present exactly when the name element is present — but holds `None`
rather than the element's text (the sanitizer's result is discarded). -/
theorem C3_parse_structure (attempt : Nat → FetchOutcome (List Card))
    (cards : List Card) (h : attempt 0 = .success cards) :
    parse_teachers_page attempt =
      (cards.filter (fun c => c.nameText.isSome || c.imgSrc.isSome)).map
        (fun c => { name := c.nameText.map (fun _ => (none : Option String)),
                    img_url := c.imgSrc }) := by
  have hf : fetch attempt = .ok cards 1 :=
    fetch_success_at attempt 0 cards (by decide)
      (fun i hi => absurd hi (by omega)) h
  unfold parse_teachers_page
  rw [hf]
  show parseCards cards = _
  rw [parseCards_eq]

/-- Witness for C3 (amended) on cards covering every presence
combination: the card with neither element is dropped, the others are
kept in document order with `img_url` copied and `name` bound to `None`. -/
theorem C3_parse_structure_witness :
    parse_teachers_page paMixed =
      [{ name := some none, img_url := some (some "u1") },
       { name := none, img_url := some none },
       { name := some none, img_url := none }] := by
  rw [C3_parse_structure paMixed cardsMixed rfl]
  decide

/-- C4 counterexample: take the transient failures of the claim's
fail-fail-succeed pattern to be plain `asyncio` timeouts — a timeout is in
the claim's transient transport class.  The claim says the page fetch then
returns the successful result of attempt 3 with no exception escaping;
in the source, `parse_teachers_page` has no except clause for a plain
`asyncio.TimeoutError` (unlike `download_and_save_image`, lines 43-44), so
the very first timeout escapes to the caller. -/
theorem C4_counterexample :
    parse_teachers_page_exc paPlainTimeouts = Except.error () := rfl

/-- C4 (amended): transient failures of the classes each loop's except
clauses cover are retried — for both fetches, caught transport failures on
attempts 1 and 2 followed by success on attempt 3 yield the successful
result (parsed records / written file), and three caught failures yield
the degraded result (`[]` / no file) without raising; the image fetch
also catches and retries a plain `asyncio.TimeoutError` and never lets
any exception of the alphabet escape — but the page fetch does not catch
a plain `asyncio.TimeoutError`: it escapes to the caller on the attempt
where it occurs. -/
theorem C4_retry_semantics
    (cards : List Card) (raw : List Nat) (f1 f2 : String)
    (pa qa ra : Nat → AttemptOutcome (List Card))
    (ia ja : Nat → AttemptOutcome (List Nat))
    (k : Nat) (hk : k < MAX_RECONNECT_TRIES)
    (hp0 : pa 0 = .transportError) (hp1 : pa 1 = .transportError)
    (hp2 : pa 2 = .success cards)
    (hi0 : ia 0 = .transportError) (hi1 : ia 1 = .timeoutError)
    (hi2 : ia 2 = .success raw)
    (hq : ∀ i, i < MAX_RECONNECT_TRIES → qa i = .transportError)
    (hj : ∀ i, i < MAX_RECONNECT_TRIES →
      ja i = .transportError ∨ ja i = .timeoutError)
    (hrb : ∀ i, i < k → ra i = .transportError)
    (hrk : ra k = .timeoutError) :
    parse_teachers_page_exc pa = Except.ok (parseCards cards) ∧
    download_and_save_image_exc f1 ia = Except.ok (some (imgPath f1, raw)) ∧
    parse_teachers_page_exc qa = Except.ok [] ∧
    download_and_save_image_exc f2 ja = Except.ok none ∧
    parse_teachers_page_exc ra = Except.error () ∧
    (∀ ba : Nat → AttemptOutcome (List Nat),
      returnsNormally (download_and_save_image_exc f2 ba) = true) := by
  have hpa : pageFetch pa = .ok cards (2 + 1) := by
    calc pageFetch pa = pageFetchLoop pa 0 (2 + 1) := rfl
      _ = pageFetchLoop pa 1 (1 + 1) := by rw [pageFetchLoop_step, hp0]
      _ = pageFetchLoop pa 2 (0 + 1) := by rw [pageFetchLoop_step, hp1]
      _ = .ok cards (2 + 1) := by rw [pageFetchLoop_step, hp2]
  have hia : imgFetch ia = .ok raw (2 + 1) := by
    calc imgFetch ia = imgFetchLoop ia 0 (2 + 1) := rfl
      _ = imgFetchLoop ia 1 (1 + 1) := by rw [imgFetchLoop_step, hi0]
      _ = imgFetchLoop ia 2 (0 + 1) := by rw [imgFetchLoop_step, hi1]
      _ = .ok raw (2 + 1) := by rw [imgFetchLoop_step, hi2]
  have hqa : pageFetch qa = .exhausted := by
    calc pageFetch qa = pageFetchLoop qa 0 (2 + 1) := rfl
      _ = pageFetchLoop qa 1 (1 + 1) := by
            rw [pageFetchLoop_step, hq 0 (by decide)]
      _ = pageFetchLoop qa 2 (0 + 1) := by
            rw [pageFetchLoop_step, hq 1 (by decide)]
      _ = pageFetchLoop qa 3 0 := by
            rw [pageFetchLoop_step, hq 2 (by decide)]
      _ = .exhausted := rfl
  have hstep : ∀ tries r,
      (ja tries = .transportError ∨ ja tries = .timeoutError) →
      imgFetchLoop ja tries (r + 1) = imgFetchLoop ja (tries + 1) r := by
    intro tries r h
    rcases h with h | h <;> rw [imgFetchLoop_step, h]
  have hja : imgFetch ja = .exhausted := by
    calc imgFetch ja = imgFetchLoop ja 0 (2 + 1) := rfl
      _ = imgFetchLoop ja 1 (1 + 1) := hstep 0 2 (hj 0 (by decide))
      _ = imgFetchLoop ja 2 (0 + 1) := hstep 1 1 (hj 1 (by decide))
      _ = imgFetchLoop ja 3 0 := hstep 2 0 (hj 2 (by decide))
      _ = .exhausted := rfl
  have hra : pageFetch ra = .raised (k + 1) := by
    have hk3 : k = 0 ∨ k = 1 ∨ k = 2 := by
      revert hk; unfold MAX_RECONNECT_TRIES; omega
    rcases hk3 with h | h | h <;> subst h
    · calc pageFetch ra = pageFetchLoop ra 0 (2 + 1) := rfl
        _ = .raised (0 + 1) := by rw [pageFetchLoop_step, hrk]
    · calc pageFetch ra = pageFetchLoop ra 0 (2 + 1) := rfl
        _ = pageFetchLoop ra 1 (1 + 1) := by
              rw [pageFetchLoop_step, hrb 0 (by omega)]
        _ = .raised (1 + 1) := by rw [pageFetchLoop_step, hrk]
    · calc pageFetch ra = pageFetchLoop ra 0 (2 + 1) := rfl
        _ = pageFetchLoop ra 1 (1 + 1) := by
              rw [pageFetchLoop_step, hrb 0 (by omega)]
        _ = pageFetchLoop ra 2 (0 + 1) := by
              rw [pageFetchLoop_step, hrb 1 (by omega)]
        _ = .raised (2 + 1) := by rw [pageFetchLoop_step, hrk]
  refine ⟨?_, ?_, ?_, ?_, ?_, fun ba => download_exc_returnsNormally f2 ba⟩
  · unfold parse_teachers_page_exc
    rw [hpa]
  · unfold download_and_save_image_exc
    rw [hia]
  · unfold parse_teachers_page_exc
    rw [hqa]
  · unfold download_and_save_image_exc
    rw [hja]
  · unfold parse_teachers_page_exc
    rw [hra]

/-- Witness for C4 (amended) at concrete attempt sequences: two caught
transport failures then success yield the record / the file (the image
fetch even retries a plain timeout on attempt 2); three caught failures
yield `[]` / no file; a plain timeout on the page fetch's attempt 2
escapes; the image fetch returns normally even on all-timeouts. -/
theorem C4_witness :
    parse_teachers_page_exc paTransportThenOk =
      Except.ok [{ name := some none, img_url := some (some "u") }] ∧
    download_and_save_image_exc "N" iaMixedThenOk =
      Except.ok (some ("img/N.jpg", [7, 7])) ∧
    parse_teachers_page_exc qaAllTransport = Except.ok [] ∧
    download_and_save_image_exc "N" jaMixedFail = Except.ok none ∧
    parse_teachers_page_exc paTimeoutAt1 = Except.error () ∧
    returnsNormally (download_and_save_image_exc "N" iaAllTimeout) = true := by
  have h := C4_retry_semantics [⟨some "N", some (some "u")⟩] [7, 7] "N" "N"
    paTransportThenOk qaAllTransport paTimeoutAt1 iaMixedThenOk jaMixedFail
    1 (by decide)
    rfl rfl rfl rfl rfl rfl
    (fun i hi => rfl)
    (fun i hi => by
      match i with
      | 0 => exact Or.inl rfl
      | 1 => exact Or.inr rfl
      | n + 2 => exact Or.inl rfl)
    (fun i hi => by
      have h0 : i = 0 := by omega
      subst h0
      rfl)
    rfl
  exact ⟨h.1, h.2.1, h.2.2.1, h.2.2.2.1, h.2.2.2.2.1,
    h.2.2.2.2.2 iaAllTimeout⟩

/-- C8: a decoding (`UnicodeError`) failure is non-retryable for both
fetches: the loop stops on the attempt where it occurs (the tries counter
ends at `k + 1`, and any attempt function agreeing up to attempt `k`
gives the same result, so later attempts are never consumed), the parser
returns `[]` and the image fetcher writes no file. -/
theorem C8_unicode_nonretryable
    (k l : Nat) (hk : k < MAX_RECONNECT_TRIES) (hl : l < MAX_RECONNECT_TRIES)
    (pa : Nat → FetchOutcome (List Card)) (ia : Nat → FetchOutcome (List Nat))
    (fname : String)
    (hpb : ∀ i, i < k → pa i = .transportError) (hpk : pa k = .unicodeError)
    (hib : ∀ i, i < l → ia i = .transportError) (hil : ia l = .unicodeError) :
    fetch pa = .unicodeAbort (k + 1) ∧ parse_teachers_page pa = [] ∧
    (∀ qa : Nat → FetchOutcome (List Card),
      (∀ i, i ≤ k → qa i = pa i) → fetch qa = .unicodeAbort (k + 1)) ∧
    fetch ia = .unicodeAbort (l + 1) ∧
    download_and_save_image fname ia = none ∧
    (∀ ja : Nat → FetchOutcome (List Nat),
      (∀ i, i ≤ l → ja i = ia i) → fetch ja = .unicodeAbort (l + 1)) := by
  have h1 := fetch_unicode_at pa k hk hpb hpk
  have h2 := fetch_unicode_at ia l hl hib hil
  refine ⟨h1, ?_, ?_, h2, ?_, ?_⟩
  · unfold parse_teachers_page
    rw [h1]
  · intro qa hqa
    exact fetch_unicode_at qa k hk
      (fun i hi => (hqa i (by omega)).trans (hpb i hi))
      ((hqa k (by omega)).trans hpk)
  · unfold download_and_save_image
    rw [h2]
  · intro ja hja
    exact fetch_unicode_at ja l hl
      (fun i hi => (hja i (by omega)).trans (hib i hi))
      ((hja l (by omega)).trans hil)

/-- Witness for C8: a decoding failure on attempt 1 (after one transport
failure) stops the page fetch with the counter at 2; the image fetch
stops on a first-attempt decoding failure with the counter at 1; and an
attempt function whose third attempt would succeed still aborts, showing
the remaining attempt is never consumed. -/
theorem C8_witness :
    fetch paUnicodeAt1 = .unicodeAbort 2 ∧
    parse_teachers_page paUnicodeAt1 = [] ∧
    fetch paUnicodeAt1ThenOk = .unicodeAbort 2 ∧
    fetch iaUnicodeAt0 = .unicodeAbort 1 ∧
    download_and_save_image "N" iaUnicodeAt0 = none := by
  have h := C8_unicode_nonretryable 1 0 (by decide) (by decide)
    paUnicodeAt1 iaUnicodeAt0 "N"
    (fun i hi => by
      have h0 : i = 0 := by omega
      subst h0
      rfl)
    rfl (fun i hi => absurd hi (by omega)) rfl
  refine ⟨h.1, h.2.1, ?_, h.2.2.2.1, h.2.2.2.2.1⟩
  exact h.2.2.1 paUnicodeAt1ThenOk (fun i hi => by
    match i, hi with
    | 0, _ => rfl
    | 1, _ => rfl)

/-- C5 counterexample: in the single-subdomain scenario the claim says
`teachers.json` holds the array
`[{"name":"Jane Doe","img_url":"https://a.schools.by/x.jpg"}]`;
the run never writes that value — the `'name'` key is bound to `null`. -/
theorem C5_counterexample :
    Event.writeTeachersJson
        [[("name", some "Jane Doe"),
          ("img_url", some "https://a.schools.by/x.jpg")]]
      ∉ (mainRun scenarioWorld).events := by
  decide

/-- C5 (amended): `teachers.json` is written as the JSON array obtained by
concatenating the non-empty per-subdomain results in launch order, one
object per record, keys restricted to `'name'` and `'img_url'` in that
insertion order — but the `'name'` key, when present, is bound to `null`
(not a string); for the single-subdomain "Jane Doe" scenario the persisted
array is `[{"name": null, "img_url": "https://a.schools.by/x.jpg"}]`. -/
theorem C5_teachers_json (w : World) (boxes : List CityBox)
    (h : w.directory = .ok boxes) :
    Event.writeTeachersJson
        ((aggregateTeachers
            (teacherPages w (extractSubdomains boxes))).map teacherJson)
      ∈ (mainRun w).events ∧
    aggregateTeachers (teacherPages w (extractSubdomains boxes)) =
      ((teacherPages w (extractSubdomains boxes)).filter
          (fun r => !r.isEmpty)).flatten ∧
    (∀ t ∈ aggregateTeachers (teacherPages w (extractSubdomains boxes)),
      ∀ kv ∈ teacherJson t,
        (kv.1 = "name" ∨ kv.1 = "img_url") ∧
        (kv.1 = "name" → kv.2 = none)) := by
  refine ⟨?_, aggregateTeachers_eq _, ?_⟩
  · unfold mainRun
    rw [h]
    simp [List.mem_append]
  · intro t ht kv hkv
    have hj := mem_aggregateTeachers_name_join w (extractSubdomains boxes) t ht
    rcases t with ⟨tn, tu⟩
    cases tn with
    | none =>
      cases tu with
      | none => simp [teacherJson] at hkv
      | some v =>
        simp [teacherJson] at hkv
        subst hkv
        refine ⟨Or.inr rfl, fun hname => ?_⟩
        exact absurd (show ("img_url" : String) = "name" from hname) (by decide)
    | some v =>
      have hv : v = none := by simpa [Option.join] using hj
      subst hv
      cases tu with
      | none =>
        simp [teacherJson] at hkv
        subst hkv
        exact ⟨Or.inl rfl, fun _ => rfl⟩
      | some u =>
        simp [teacherJson] at hkv
        rcases hkv with hkv | hkv <;> subst hkv
        · exact ⟨Or.inl rfl, fun _ => rfl⟩
        · refine ⟨Or.inr rfl, fun hname => ?_⟩
          exact absurd (show ("img_url" : String) = "name" from hname) (by decide)

/-- Witness for C5 (amended) at the "Jane Doe" scenario: the run writes
`teachers.json` with the name bound to `null` and the image URL kept. -/
theorem C5_witness :
    Event.writeTeachersJson
        [[("name", none), ("img_url", some "https://a.schools.by/x.jpg")]]
      ∈ (mainRun scenarioWorld).events := by
  have h := (C5_teachers_json scenarioWorld
    [⟨[some "https://a.schools.by"]⟩] rfl).1
  have he : (aggregateTeachers (teacherPages scenarioWorld
        (extractSubdomains [⟨[some "https://a.schools.by"]⟩]))).map teacherJson
      = [[("name", none), ("img_url", some "https://a.schools.by/x.jpg")]] := by
    decide
  rw [he] at h
  exact h

/-- C6: in every run, no image download is launched before the
`teachers.json` write (no `launchImage` event precedes the
`writeTeachersJson` event), and the run awaits every launched download
before terminating (one `awaitImage` event per `launchImage` event).
This holds vacuously strongly: since every record's name is `None`, the
guard never launches a download at all. -/
theorem C6_json_precedes_image_work (w : World) :
    ((mainRun w).events.takeWhile
        (fun e => !isWriteTeachersJson e)).countP isLaunchImage = 0 ∧
    (mainRun w).events.countP isAwaitImage =
      (mainRun w).events.countP isLaunchImage := by
  have hall : (mainRun w).events.countP isLaunchImage = 0 :=
    List.countP_eq_zero.mpr (fun e he => by
      simp [(mainRun_no_image_events w e he).1])
  have hawait : (mainRun w).events.countP isAwaitImage = 0 :=
    List.countP_eq_zero.mpr (fun e he => by
      simp [(mainRun_no_image_events w e he).2])
  refine ⟨?_, by rw [hall, hawait]⟩
  exact List.countP_eq_zero.mpr (fun e he => by
    have hmem : e ∈ (mainRun w).events :=
      (List.takeWhile_sublist _).subset he
    simp [(mainRun_no_image_events w e hmem).1])

/-- C7: the `subdomains.txt` content is, for each anchor in document
order, its `href` (or `""`) followed by one newline; the number of
extracted subdomains — and hence, when no `href` contains a newline, the
number of newline-terminated lines — equals the total anchor count over
all city boxes; and the run persists exactly that content. -/
theorem C7_subdomains_lines (boxes : List CityBox)
    (h : ∀ s ∈ extractSubdomains boxes, s.data.count '\n' = 0) :
    (subdomainsTxt (extractSubdomains boxes)).data =
      ((extractSubdomains boxes).map (fun s => s.data ++ ['\n'])).flatten ∧
    (extractSubdomains boxes).length =
      (boxes.map (fun b => b.anchors.length)).sum ∧
    (subdomainsTxt (extractSubdomains boxes)).data.count '\n' =
      (boxes.map (fun b => b.anchors.length)).sum ∧
    (∀ page : String → Nat → FetchOutcome (List Card),
      Event.writeSubdomainsTxt (subdomainsTxt (extractSubdomains boxes))
        ∈ (mainRun ⟨.ok boxes, page⟩).events) := by
  refine ⟨subdomainsTxt_data _, extractSubdomains_length _, ?_, ?_⟩
  · rw [subdomainsTxt_data, count_newlines _ h, extractSubdomains_length]
  · intro page
    unfold mainRun
    simp

/-- Witness for C7 at two city boxes with three anchors total (one anchor
missing its `href`): three newline-terminated lines are persisted. -/
theorem C7_witness :
    (subdomainsTxt (extractSubdomains boxesTwoCities)).data.count '\n' =
      (boxesTwoCities.map (fun b => b.anchors.length)).sum ∧
    Event.writeSubdomainsTxt (subdomainsTxt (extractSubdomains boxesTwoCities))
      ∈ (mainRun ⟨.ok boxesTwoCities, pagesDown⟩).events := by
  have h := C7_subdomains_lines boxesTwoCities (by decide)
  exact ⟨h.2.2.1, h.2.2.2 pagesDown⟩

/-- C9: when the single directory-page fetch raises, the exception
propagates out of `main` uncaught (the run does not complete normally)
and the trace is empty: no `subdomains.txt`, no `teachers.json`, no
image file is written. -/
theorem C9_directory_failure_fatal (w : World) (h : w.directory = .raised) :
    mainRun w = ⟨[], false⟩ := by
  unfold mainRun
  rw [h]

/-- Witness for C9 at a concrete world whose directory fetch raises. -/
theorem C9_witness : mainRun raisedWorld = ⟨[], false⟩ :=
  C9_directory_failure_fatal raisedWorld rfl

end Scrap

/-- C10: the spinner counter `_char_pos` of console_proc.py is `0`
initially and stays strictly below the length of `_loading_chars` (four)
across calls to `print_loading`, each call advancing it by one modulo
that length — so the character index it uses is always in bounds. -/
theorem C10_spinner_invariant :
    ConsoleProc.char_pos_after 0 = 0 ∧
    (∀ n, ConsoleProc.char_pos_after n < ConsoleProc.loading_chars.length) ∧
    (∀ n, ConsoleProc.char_pos_after (n + 1) =
      (ConsoleProc.char_pos_after n + 1) % ConsoleProc.loading_chars.length) := by
  refine ⟨rfl, ?_, fun n => rfl⟩
  intro n
  induction n with
  | zero => decide
  | succ n ih =>
    show (ConsoleProc.char_pos_after n + 1) % ConsoleProc.loading_chars.length
        < ConsoleProc.loading_chars.length
    exact Nat.mod_lt _ (by decide)
